import Mathlib

/-!
Verification of the inventory-management repository's forecasting pipeline
(model.py) and order-processing route (app.py), as a shallow embedding.

Modelling conventions:
* A parsed line item carries an integer product id and an integer quantity,
  as in the JSON payloads the repository ships and tests with.
* Python floats are modelled as exact rationals; the mean computed by
  pandas and the 1.5 multiplier are therefore exact.  Python int() applied
  to a float truncates toward zero, which is pyInt below.
* A cell of the line_items column either decodes to a list of well-formed
  items (Cell.json) or makes the extraction raise (Cell.malformed covers
  invalid JSON as well as payloads whose iteration or field access raises:
  in model.py all of these abort into the same except branch).
* pandas groupby sorts the distinct keys ascending; an empty frame built
  from an empty record list has no columns, so groupby then raises KeyError.
* Exceptions are modelled with Except; main catches every exception of its
  body, prints the error and returns the empty dict, which is the
  MainResult record below (output plus an errorReported flag recording
  whether the except branch ran).
-/

namespace Model

/-- One decoded line item of an order: the product_id and quantity fields
read by model.py. -/
structure LineItem where
  product_id : Int
  quantity : Int
deriving DecidableEq

/-- The line_items cell of one CSV row: either a decodable list of
well-formed items, or a payload on which decoding or extraction raises. -/
inductive Cell where
  | json (items : List LineItem)
  | malformed (raw : String)
deriving DecidableEq

/-- One row of the orders CSV.  model.py reads only the line_items column;
the other required columns do not influence the pipeline. -/
structure OrderRow where
  line_items : Cell
deriving DecidableEq

/-- The input handed to main: either a file pandas cannot read into the
expected table (read_csv or column access raises), or the table of rows. -/
inductive Dataset where
  | unreadable (msg : String)
  | table (rows : List OrderRow)
deriving DecidableEq

/-- Result of json.loads on one line_items cell, with the failures that
abort extraction folded in (model.py lines 127 and 131-136). -/
def parseLineItems : Cell → Except String (List LineItem)
  | .json items => .ok items
  | .malformed raw => .error (String.append "JSONDecodeError: " raw)

/-- Result of pd.read_csv (model.py line 124). -/
def readCsv : Dataset → Except String (List OrderRow)
  | .unreadable msg => .error msg
  | .table rows => .ok rows

/-- Series.apply(json.loads) over the line_items column (model.py line
127): the first failing cell raises and aborts the whole application. -/
def decodeRows : List OrderRow → Except String (List (List LineItem))
  | [] => .ok []
  | r :: rs =>
    match parseLineItems r.line_items with
    | .error e => .error e
    | .ok items =>
      match decodeRows rs with
      | .error e => .error e
      | .ok rest => .ok (items :: rest)

/-- The extraction loop (model.py lines 130-136): flatten the decoded
orders into one (product_id, quantity) record per line item. -/
def extractObs (decoded : List (List LineItem)) : List (Int × Int) :=
  (decoded.map (fun items => items.map (fun it => (it.product_id, it.quantity)))).flatten

/-- Sum of the quantity column within the product_id group. -/
def totalQuantity (obs : List (Int × Int)) (pid : Int) : Int :=
  ((obs.filter (fun o => o.1 = pid)).map (fun o => o.2)).sum

/-- Size of the product_id group: one count per line-item record. -/
def orderFrequency (obs : List (Int × Int)) (pid : Int) : Nat :=
  (obs.filter (fun o => o.1 = pid)).length

/-- Mean of the quantity column within the product_id group. -/
def avgQuantity (obs : List (Int × Int)) (pid : Int) : ℚ :=
  (totalQuantity obs pid : ℚ) / (orderFrequency obs pid : ℚ)

/-- The distinct product ids, ascending: pandas groupby sorts its keys. -/
def groupKeys (obs : List (Int × Int)) : List Int :=
  List.insertionSort (fun a b => a ≤ b) (obs.map Prod.fst).dedup

/-- One row of the aggregated frame of model.py lines 142-145. -/
structure AggRow where
  total_quantity : Int
  avg_quantity : ℚ
  order_frequency : Nat
deriving DecidableEq

/-- The groupby-agg stage (model.py lines 142-145).  On an empty record
list pd.DataFrame produces a frame with no columns and groupby raises
KeyError, hence the error branch. -/
def aggregate (obs : List (Int × Int)) : Except String (List (Int × AggRow)) :=
  if obs.isEmpty then .error "KeyError: product_id"
  else .ok ((groupKeys obs).map (fun pid =>
    (pid, AggRow.mk (totalQuantity obs pid) (avgQuantity obs pid) (orderFrequency obs pid))))

/-- Python int() on a float: truncation toward zero. -/
def pyInt (q : ℚ) : Int :=
  if 0 ≤ q then ⌊q⌋ else ⌈q⌉

/-- One value of the dictionary returned by main (model.py lines 150-154). -/
structure Prediction where
  total_quantity : Int
  avg_quantity : ℚ
  predicted_stock : Int
deriving DecidableEq

/-- Build one output entry from one aggregate row (model.py lines 150-154):
predicted_stock is int(avg_quantity * 1.5). -/
def predictRow (row : AggRow) : Prediction :=
  Prediction.mk row.total_quantity row.avg_quantity (pyInt (row.avg_quantity * (3 / 2)))

/-- The body of the try block of main (model.py lines 123-156). -/
def pipeline (ds : Dataset) : Except String (List (Int × Prediction)) :=
  match readCsv ds with
  | .error e => .error e
  | .ok rows =>
    match decodeRows rows with
    | .error e => .error e
    | .ok decoded =>
      match aggregate (extractObs decoded) with
      | .error e => .error e
      | .ok aggs => .ok (aggs.map (fun pr => (pr.1, predictRow pr.2)))

/-- What main hands back, together with whether the except branch ran and
reported an error (model.py lines 158-162). -/
structure MainResult where
  output : List (Int × Prediction)
  errorReported : Bool
deriving DecidableEq

/-- model.py main: run the pipeline, catch any exception, report it and
return the empty dictionary. -/
def main (ds : Dataset) : MainResult :=
  match pipeline ds with
  | .ok m => MainResult.mk m false
  | .error _ => MainResult.mk [] true

/-- Whether json.loads and the extraction loop accept the line_items cell
of this row. -/
def isParsable (r : OrderRow) : Bool :=
  match r.line_items with
  | .json _ => true
  | .malformed _ => false

/-- The items carried by one row, a malformed cell carrying none. -/
def rowItems (r : OrderRow) : List LineItem :=
  match r.line_items with
  | .json items => items
  | .malformed _ => []

/-- All line items of a table, order by order, an order with a malformed
cell contributing none: the dataset-wide list of observations the spec
speaks about. -/
def allLineItems (rows : List OrderRow) : List LineItem :=
  (rows.map rowItems).flatten

/-- The (product_id, quantity) record built from one line item. -/
def toObs (it : LineItem) : Int × Int :=
  (it.product_id, it.quantity)

/-- Dataset-wide sum of the quantities of the line items of one product. -/
def specTotal (items : List LineItem) (pid : Int) : Int :=
  ((items.filter (fun it => it.product_id = pid)).map (fun it => it.quantity)).sum

/-- Dataset-wide count of the line-item occurrences of one product. -/
def specCount (items : List LineItem) (pid : Int) : Nat :=
  (items.filter (fun it => it.product_id = pid)).length

/-- Two consecutive invocations of main on the same unchanged dataset:
main only reads its input, so both runs see the same table. -/
def runForecastTwice (ds : Dataset) : MainResult × MainResult :=
  (main ds, main ds)

/-- One row of the frame returned by prepare_data (model.py lines 36-45).
The quantity column holds the group sum; avg_order_size and
order_frequency are Option valued because the pandas column assignment
aligns on the index and yields NaN where a label is absent. -/
structure PrepRow where
  product_id : Int
  quantity : Int
  avg_order_size : Option ℚ
  order_frequency : Option Nat
deriving DecidableEq

/-- The aggregation stage of prepare_data (model.py lines 36-45), starting
from the flat observation records.  groupby-sum followed by reset_index
yields rows 0..n-1 in ascending product_id order with a fresh RangeIndex;
each subsequent column assignment takes a Series indexed by product_id and
aligns it on that RangeIndex, so positional row i receives the statistic
of the product whose id is the integer i when such a group exists, and NaN
otherwise. -/
def prepare_data_agg (obs : List (Int × Int)) : Except String (List PrepRow) :=
  if obs.isEmpty then .error "KeyError: product_id"
  else .ok ((groupKeys obs).enum.map (fun pr =>
    PrepRow.mk pr.2 (totalQuantity obs pr.2)
      (if (pr.1 : Int) ∈ obs.map Prod.fst then some (avgQuantity obs (pr.1 : Int)) else none)
      (if (pr.1 : Int) ∈ obs.map Prod.fst then some (orderFrequency obs (pr.1 : Int)) else none)))

end Model

namespace App

/-- One row of the products table keyed by its primary key product_id:
the remaining columns name, price, stock_level. -/
structure ProductRec where
  name : String
  price : ℚ
  stock_level : Int
deriving DecidableEq

/-- The products table as a map from product_id to the rest of the row. -/
abbrev ProductsTable := Int → Option ProductRec

/-- One entry of a parsed line_items payload as process_orders reads it:
product_id and quantity always, name and price read only when the product
has to be synthesized (app.py lines 266-283). -/
structure OrderItem where
  product_id : Int
  quantity : Int
  name : String
  price : ℚ
deriving DecidableEq

/-- The line_items column of one orders row: either a list of well-formed
entries or a payload json.loads rejects. -/
inductive ItemsCell where
  | json (items : List OrderItem)
  | malformed (raw : String)
deriving DecidableEq

/-- One row of the orders table (app.py line 259). -/
structure DBOrder where
  order_id : Int
  order_date : String
  customer_email : String
  total_amount : ℚ
  status : String
  line_items : ItemsCell
deriving DecidableEq

/-- Body of the per-item loop of process_orders (app.py lines 266-283):
first the UPDATE deducts the quantity from the stock_level of the matching
row if one exists, then the SELECT checks for the row and, finding none,
INSERTs a fresh product with stock_level equal to the negated quantity. -/
def applyItem (db : ProductsTable) (item : OrderItem) : ProductsTable :=
  let updated : ProductsTable := fun pid =>
    if pid = item.product_id then
      (db pid).map (fun r => { r with stock_level := r.stock_level - item.quantity })
    else db pid
  match updated item.product_id with
  | some _ => updated
  | none => fun pid =>
      if pid = item.product_id then
        some (ProductRec.mk item.name item.price (-item.quantity))
      else updated pid

/-- The per-item loop over the whole parsed payload of one order. -/
def applyItems (db : ProductsTable) (items : List OrderItem) : ProductsTable :=
  items.foldl applyItem db

/-- One iteration of the order loop of process_orders (app.py lines
258-290) applied to an order the query selected, i.e. whose status is not
completed: skip the order when its payload fails to decode, otherwise run
the item loop and mark the order completed. -/
def processOrder (db : ProductsTable) (o : DBOrder) : ProductsTable × DBOrder :=
  if o.status = "completed" then (db, o)
  else
    match o.line_items with
    | .malformed _ => (db, o)
    | .json items => (applyItems db items, { o with status := "completed" })

/-- Sum of the quantities that the items of one order attach to one
product id. -/
def orderItemsTotal (items : List OrderItem) (pid : Int) : Int :=
  ((items.filter (fun it => it.product_id = pid)).map (fun it => it.quantity)).sum

end App

namespace Learned

/-- A persisted scaler artifact, what stock_scaler.pkl deserializes to:
characterized by how it transforms one standardized feature pair. -/
structure Scaler where
  transform : ℚ × ℚ → ℚ × ℚ

/-- A persisted regression model artifact, what stock_prediction_model.pkl
deserializes to: characterized by its per-row prediction and by its
coefficient-of-determination score on an evaluation set. -/
structure RFModel where
  predictOne : ℚ × ℚ → ℚ
  scoreR2 : List (ℚ × ℚ) → List ℚ → ℚ

/-- The two artifact files the learned path loads with joblib; none models
a file that is missing or cannot be loaded. -/
structure FileStore where
  modelFile : Option RFModel
  scalerFile : Option Scaler

/-- One row of the frame handed to predict_stock_needs, indexed by the
product id per the docstring of model.py lines 75-108. -/
structure NewDataRow where
  product_id : Int
  quantity : Int
  avg_order_size : ℚ
  order_frequency : Nat

/-- The value stored under one product id by predict_stock_needs (model.py
lines 102-106). -/
structure LearnedPrediction where
  avg_quantity : ℚ
  predicted_stock : ℚ
  confidence : ℚ

/-- joblib.load: raises FileNotFoundError when the artifact is absent
(model.py lines 85-86 have no surrounding try). -/
def joblibLoad {α : Type} (file : Option α) (nm : String) : Except String α :=
  match file with
  | some a => .ok a
  | none => .error (String.append "FileNotFoundError: " nm)

/-- model.py predict_stock_needs: load model and scaler, scale the feature
columns, predict, score the confidence, and assemble the dictionary.  Any
load failure propagates: there is no handler and no fallback. -/
def predict_stock_needs (store : FileStore) (new_data : List NewDataRow) :
    Except String (List (Int × LearnedPrediction)) :=
  match joblibLoad store.modelFile "stock_prediction_model.pkl" with
  | .error e => .error e
  | .ok model =>
    match joblibLoad store.scalerFile "stock_scaler.pkl" with
    | .error e => .error e
    | .ok scaler =>
      let scaled := new_data.map
        (fun r => scaler.transform (r.avg_order_size, (r.order_frequency : ℚ)))
      let preds := scaled.map model.predictOne
      let conf := model.scoreR2 scaled (new_data.map (fun r => (r.quantity : ℚ)))
      .ok ((new_data.zip preds).map
        (fun rp => (rp.1.product_id, LearnedPrediction.mk rp.1.avg_order_size rp.2 conf)))

end Learned

/-- The row list of the end-to-end example of the spec: order A with line
items [(1,10)], order B with [(1,20),(2,5)]. -/
def rowsSpecExample : List Model.OrderRow :=
  [Model.OrderRow.mk (Model.Cell.json [Model.LineItem.mk 1 10]),
   Model.OrderRow.mk (Model.Cell.json [Model.LineItem.mk 1 20, Model.LineItem.mk 2 5])]

/-- The end-to-end example dataset of the spec. -/
def dsSpecExample : Model.Dataset :=
  Model.Dataset.table rowsSpecExample

/-- A well-formed dataset whose single order carries one line item with a
negative quantity. -/
def dsNegativeQty : Model.Dataset :=
  Model.Dataset.table [Model.OrderRow.mk (Model.Cell.json [Model.LineItem.mk 1 (-1)])]

/-- A table with one well-formed order for product 1 and one order whose
line_items cell is invalid JSON. -/
def rowsOneGoodOneBad : List Model.OrderRow :=
  [Model.OrderRow.mk (Model.Cell.json [Model.LineItem.mk 1 10]),
   Model.OrderRow.mk (Model.Cell.malformed "not json")]

/-- rowsOneGoodOneBad with the malformed order removed entirely. -/
def rowsOneGood : List Model.OrderRow :=
  [Model.OrderRow.mk (Model.Cell.json [Model.LineItem.mk 1 10])]

/-- The observation list exercising the index alignment of prepare_data:
products 1 and 2, neither id equal to its positional row number. -/
def obsMisaligned : List (Int × Int) :=
  [(1, 10), (2, 5)]

/-- A products table holding exactly product 1, named Widget, price 2,
stock 100. -/
def dbWidget : App.ProductsTable :=
  fun pid => if pid = 1 then some (App.ProductRec.mk "Widget" 2 100) else none

/-- The payload of the example pending order: deduct 10 of product 1 and 5
of the absent product 2. -/
def itemsPending : List App.OrderItem :=
  [App.OrderItem.mk 1 10 "Widget" 2, App.OrderItem.mk 2 5 "Gadget" 3]

/-- An example pending order carrying itemsPending. -/
def orderPending : App.DBOrder :=
  App.DBOrder.mk 7 "2024-01-01" "a@b.c" 35 "pending" (App.ItemsCell.json itemsPending)

/-- An artifact store with both persisted files missing. -/
def emptyStore : Learned.FileStore :=
  Learned.FileStore.mk none none

/-- Decoding succeeds on a table whose cells are all well formed, and
yields exactly the items of each row. -/
theorem decodeRows_ok_of_wellformed (rows : List Model.OrderRow)
    (h : ∀ r ∈ rows, Model.isParsable r = true) :
    Model.decodeRows rows = Except.ok (rows.map Model.rowItems) := by
  induction rows with
  | nil => rfl
  | cons r rs ih =>
    have hr : Model.isParsable r = true := h r (List.mem_cons_self r rs)
    cases hc : r.line_items with
    | json items =>
      have hrest := ih (fun x hx => h x (List.mem_cons_of_mem r hx))
      simp [Model.decodeRows, Model.parseLineItems, hc, hrest, Model.rowItems]
    | malformed raw => simp [Model.isParsable, hc] at hr

/-- If decoding succeeds, what it yields are the items of each row. -/
theorem decodeRows_ok_eq (rows : List Model.OrderRow)
    (decoded : List (List Model.LineItem))
    (h : Model.decodeRows rows = Except.ok decoded) :
    decoded = rows.map Model.rowItems := by
  induction rows generalizing decoded with
  | nil =>
    simp [Model.decodeRows] at h
    simp [h.symm]
  | cons r rs ih =>
    cases hc : r.line_items with
    | malformed raw => simp [Model.decodeRows, Model.parseLineItems, hc] at h
    | json items =>
      cases hd : Model.decodeRows rs with
      | error e => simp [Model.decodeRows, Model.parseLineItems, hc, hd] at h
      | ok rest =>
        simp [Model.decodeRows, Model.parseLineItems, hc, hd] at h
        simp [h.symm, Model.rowItems, hc, ih rest hd]

/-- A malformed cell anywhere in the table makes decoding fail. -/
theorem decodeRows_error_of_malformed (rows : List Model.OrderRow)
    (r : Model.OrderRow) (raw : String)
    (hr : r ∈ rows) (hm : r.line_items = Model.Cell.malformed raw) :
    ∃ e, Model.decodeRows rows = Except.error e := by
  induction rows with
  | nil => cases hr
  | cons a as ih =>
    rcases List.mem_cons.mp hr with h1 | h2
    · subst h1
      refine ⟨String.append "JSONDecodeError: " raw, ?_⟩
      simp [Model.decodeRows, Model.parseLineItems, hm]
    · cases hp : Model.parseLineItems a.line_items with
      | error e => exact ⟨e, by simp [Model.decodeRows, hp]⟩
      | ok items =>
        obtain ⟨e, he⟩ := ih h2
        exact ⟨e, by simp [Model.decodeRows, hp, he]⟩

/-- The extraction loop over the decoded rows yields the observation
records of the dataset-wide line items. -/
theorem extractObs_eq (rows : List Model.OrderRow) :
    Model.extractObs (rows.map Model.rowItems)
      = (Model.allLineItems rows).map Model.toObs := by
  simp only [Model.extractObs, Model.allLineItems, List.map_flatten, List.map_map]
  rfl

/-- Filtering the observation records of a product commutes with building
them from line items. -/
theorem filter_map_toObs (items : List Model.LineItem) (pid : Int) :
    (items.map Model.toObs).filter (fun o => o.1 = pid)
      = (items.filter (fun it => it.product_id = pid)).map Model.toObs := by
  induction items with
  | nil => rfl
  | cons it its ih =>
    by_cases h : it.product_id = pid <;> simp [Model.toObs, h, ih]

/-- The group sum over observation records is the dataset-wide quantity
sum over line items. -/
theorem totalQuantity_map_toObs (items : List Model.LineItem) (pid : Int) :
    Model.totalQuantity (items.map Model.toObs) pid = Model.specTotal items pid := by
  unfold Model.totalQuantity Model.specTotal
  rw [filter_map_toObs, List.map_map]
  rfl

/-- The group size over observation records is the dataset-wide line-item
count. -/
theorem orderFrequency_map_toObs (items : List Model.LineItem) (pid : Int) :
    Model.orderFrequency (items.map Model.toObs) pid = Model.specCount items pid := by
  simp [Model.orderFrequency, Model.specCount, filter_map_toObs]

/-- Membership in the group keys is membership in the product_id column. -/
theorem mem_groupKeys (obs : List (Int × Int)) (pid : Int) :
    pid ∈ Model.groupKeys obs ↔ pid ∈ obs.map Prod.fst := by
  simp [Model.groupKeys, List.mem_insertionSort, List.mem_dedup]

/-- The group keys carry no duplicates. -/
theorem nodup_groupKeys (obs : List (Int × Int)) : (Model.groupKeys obs).Nodup :=
  (List.perm_insertionSort (fun a b : Int => a ≤ b)
    (obs.map Prod.fst).dedup).nodup_iff.mpr (List.nodup_dedup _)

/-- Every entry of the output of main comes from a successful read and
decode, its key is a group key of the extracted observations, and its
value is the heuristic prediction over that group's aggregates. -/
theorem main_output_entries (ds : Model.Dataset) (pid : Int) (pred : Model.Prediction)
    (hmem : (pid, pred) ∈ (Model.main ds).output) :
    ∃ rows decoded, Model.readCsv ds = Except.ok rows ∧
      Model.decodeRows rows = Except.ok decoded ∧
      pid ∈ Model.groupKeys (Model.extractObs decoded) ∧
      pred = Model.predictRow (Model.AggRow.mk
        (Model.totalQuantity (Model.extractObs decoded) pid)
        (Model.avgQuantity (Model.extractObs decoded) pid)
        (Model.orderFrequency (Model.extractObs decoded) pid)) := by
  cases hcsv : Model.readCsv ds with
  | error e => simp [Model.main, Model.pipeline, hcsv] at hmem
  | ok rows =>
    cases hdec : Model.decodeRows rows with
    | error e => simp [Model.main, Model.pipeline, hcsv, hdec] at hmem
    | ok decoded =>
      by_cases hobs : (Model.extractObs decoded).isEmpty
      · simp [Model.main, Model.pipeline, Model.aggregate, hcsv, hdec, hobs] at hmem
      · simp [Model.main, Model.pipeline, Model.aggregate, hcsv, hdec, hobs] at hmem
        obtain ⟨pid', hpid', h1, h2⟩ := hmem
        subst h1
        exact ⟨rows, decoded, rfl, hdec, hpid', h2.symm⟩

/-- Truncation toward zero agrees with the floor on nonnegative inputs. -/
theorem pyInt_eq_floor (q : ℚ) (h : 0 ≤ q) : Model.pyInt q = ⌊q⌋ := by
  unfold Model.pyInt
  exact if_pos h

/-- Evaluation of main on the end-to-end example dataset of the spec. -/
theorem main_eval_specExample :
    Model.main (Model.Dataset.table rowsSpecExample) =
      Model.MainResult.mk
        [(1, Model.Prediction.mk 30 15 22), (2, Model.Prediction.mk 5 5 7)] false := by
  simp [Model.main, Model.pipeline, Model.readCsv, Model.decodeRows, Model.parseLineItems,
    rowsSpecExample, Model.extractObs, Model.aggregate, Model.groupKeys,
    List.insertionSort, List.orderedInsert, Model.predictRow, Model.pyInt,
    Model.avgQuantity, Model.totalQuantity, Model.orderFrequency, List.dedup, List.pwFilter]
  norm_num

/-- Evaluation of main on the dataset with one negative quantity. -/
theorem main_eval_negativeQty :
    Model.main dsNegativeQty =
      Model.MainResult.mk [(1, Model.Prediction.mk (-1) (-1) (-1))] false := by
  simp [Model.main, Model.pipeline, Model.readCsv, Model.decodeRows, Model.parseLineItems,
    dsNegativeQty, Model.extractObs, Model.aggregate, Model.groupKeys,
    List.insertionSort, List.orderedInsert, Model.predictRow, Model.pyInt,
    Model.avgQuantity, Model.totalQuantity, Model.orderFrequency, List.dedup, List.pwFilter]
  norm_num
  rw [Int.ceil_eq_iff]
  norm_num

/-- Evaluation of main on the single well-formed order alone. -/
theorem main_eval_oneGood :
    Model.main (Model.Dataset.table rowsOneGood) =
      Model.MainResult.mk [(1, Model.Prediction.mk 10 10 15)] false := by
  simp [Model.main, Model.pipeline, Model.readCsv, Model.decodeRows, Model.parseLineItems,
    rowsOneGood, Model.extractObs, Model.aggregate, Model.groupKeys,
    List.insertionSort, List.orderedInsert, Model.predictRow, Model.pyInt,
    Model.avgQuantity, Model.totalQuantity, Model.orderFrequency, List.dedup, List.pwFilter]
  norm_num

/-- Evaluation of main on the table holding one well-formed and one
malformed order: the whole batch aborts. -/
theorem main_eval_oneGoodOneBad :
    Model.main (Model.Dataset.table rowsOneGoodOneBad) = Model.MainResult.mk [] true := by
  simp [Model.main, Model.pipeline, Model.readCsv, Model.decodeRows, Model.parseLineItems,
    rowsOneGoodOneBad]

/-- Claim C1 (amended): for every product in the output of main,
predicted_stock is an integer equal to avg_quantity * 1.5 truncated toward
zero, and the truncation agrees with floor(avg_quantity * 1.5) whenever
avg_quantity is nonnegative; for a negative fractional avg_quantity the
truncation differs from the floor. -/
theorem predicted_stock_heuristic (ds : Model.Dataset) (pid : Int)
    (pred : Model.Prediction)
    (hmem : (pid, pred) ∈ (Model.main ds).output) :
    pred.predicted_stock = Model.pyInt (pred.avg_quantity * (3 / 2)) ∧
    (0 ≤ pred.avg_quantity →
      pred.predicted_stock = ⌊pred.avg_quantity * (3 / 2)⌋) := by
  obtain ⟨rows, decoded, _, _, _, hpred⟩ := main_output_entries ds pid pred hmem
  subst hpred
  refine ⟨rfl, fun h0 => ?_⟩
  exact pyInt_eq_floor _ (mul_nonneg h0 (by norm_num))

/-- Claim C1 as frozen is false: on dsNegativeQty the output of main holds
product 1 with avg_quantity -1 and predicted_stock -1, while the floor of
-1 * 1.5 is -2: Python int() truncates toward zero instead of flooring. -/
theorem predicted_stock_heuristic_cex :
    ∃ pr ∈ (Model.main dsNegativeQty).output,
      pr.2.predicted_stock ≠ ⌊pr.2.avg_quantity * (3 / 2 : ℚ)⌋ := by
  refine ⟨(1, Model.Prediction.mk (-1) (-1) (-1)), ?_, ?_⟩
  · rw [main_eval_negativeQty]
    exact List.mem_cons_self _ _
  · norm_num

/-- Witness for claim C1 on the example dataset of the spec: product 1 has
avg_quantity 15 and predicted_stock 22, the truncation and the floor of
22.5. -/
theorem predicted_stock_heuristic_witness :
    (((1 : Int), Model.Prediction.mk 30 15 22) ∈
      (Model.main (Model.Dataset.table rowsSpecExample)).output) ∧
    (Model.Prediction.mk 30 15 22).predicted_stock =
      Model.pyInt ((Model.Prediction.mk 30 15 22).avg_quantity * (3 / 2)) ∧
    (0 ≤ (Model.Prediction.mk 30 15 22).avg_quantity →
      (Model.Prediction.mk 30 15 22).predicted_stock =
        ⌊(Model.Prediction.mk 30 15 22).avg_quantity * (3 / 2)⌋) := by
  have hmem : (((1 : Int), Model.Prediction.mk 30 15 22) ∈
      (Model.main (Model.Dataset.table rowsSpecExample)).output) := by
    rw [main_eval_specExample]
    exact List.mem_cons_self _ _
  have h := predicted_stock_heuristic (Model.Dataset.table rowsSpecExample) 1
    (Model.Prediction.mk 30 15 22) hmem
  exact ⟨hmem, h.1, h.2⟩

/-- Claim C2: on every dataset the pipeline processes successfully, every
output entry has total_quantity equal to the dataset-wide sum of that
product's line-item quantities, and avg_quantity equal to total_quantity
divided by the dataset-wide count of that product's line-item occurrences
(a product occurring twice in one order counts twice, no deduplication by
order). -/
theorem aggregates_exact (rows : List Model.OrderRow) (pid : Int)
    (pred : Model.Prediction)
    (hok : (Model.main (Model.Dataset.table rows)).errorReported = false)
    (hmem : (pid, pred) ∈ (Model.main (Model.Dataset.table rows)).output) :
    pred.total_quantity = Model.specTotal (Model.allLineItems rows) pid ∧
    pred.avg_quantity =
      (Model.specTotal (Model.allLineItems rows) pid : ℚ) /
        (Model.specCount (Model.allLineItems rows) pid : ℚ) := by
  obtain ⟨rows', decoded, hcsv, hdec, hkey, hpred⟩ :=
    main_output_entries (Model.Dataset.table rows) pid pred hmem
  have hrows : rows = rows' := by simpa [Model.readCsv] using hcsv
  subst hrows
  have hdecoded : decoded = rows.map Model.rowItems := decodeRows_ok_eq rows decoded hdec
  subst hdecoded
  rw [extractObs_eq rows] at hpred
  subst hpred
  constructor
  · exact totalQuantity_map_toObs (Model.allLineItems rows) pid
  · show Model.avgQuantity ((Model.allLineItems rows).map Model.toObs) pid =
      (Model.specTotal (Model.allLineItems rows) pid : ℚ) /
        (Model.specCount (Model.allLineItems rows) pid : ℚ)
    unfold Model.avgQuantity
    rw [totalQuantity_map_toObs, orderFrequency_map_toObs]

/-- Witness for claim C2 on the example dataset of the spec: product 1
totals 30 over two line-item occurrences, average 15. -/
theorem aggregates_exact_witness :
    (Model.main (Model.Dataset.table rowsSpecExample)).errorReported = false ∧
    (((1 : Int), Model.Prediction.mk 30 15 22) ∈
      (Model.main (Model.Dataset.table rowsSpecExample)).output) ∧
    (Model.Prediction.mk 30 15 22).total_quantity =
      Model.specTotal (Model.allLineItems rowsSpecExample) 1 ∧
    (Model.Prediction.mk 30 15 22).avg_quantity =
      (Model.specTotal (Model.allLineItems rowsSpecExample) 1 : ℚ) /
        (Model.specCount (Model.allLineItems rowsSpecExample) 1 : ℚ) := by
  have hok : (Model.main (Model.Dataset.table rowsSpecExample)).errorReported = false := by
    rw [main_eval_specExample]
  have hmem : (((1 : Int), Model.Prediction.mk 30 15 22) ∈
      (Model.main (Model.Dataset.table rowsSpecExample)).output) := by
    rw [main_eval_specExample]
    exact List.mem_cons_self _ _
  have h := aggregates_exact rowsSpecExample 1 (Model.Prediction.mk 30 15 22) hok hmem
  exact ⟨hok, hmem, h.1, h.2⟩

/-- Claim C3 (amended): when every order's line_items cell is well formed,
the keys of the output of main carry no duplicates and are exactly the
product ids appearing in the line items of the dataset; the frozen
exception for products contributed solely by malformed orders does not
hold, because one malformed order empties the whole output. -/
theorem output_keys_exact (rows : List Model.OrderRow)
    (hgood : ∀ r ∈ rows, Model.isParsable r = true) :
    ((Model.main (Model.Dataset.table rows)).output.map Prod.fst).Nodup ∧
    (∀ pid : Int,
      pid ∈ (Model.main (Model.Dataset.table rows)).output.map Prod.fst ↔
        ∃ it ∈ Model.allLineItems rows, it.product_id = pid) := by
  have hdec := decodeRows_ok_of_wellformed rows hgood
  by_cases hobs : (Model.extractObs (rows.map Model.rowItems)).isEmpty
  · have hnil : Model.allLineItems rows = [] := by
      have h := hobs
      rw [extractObs_eq rows, List.isEmpty_iff, List.map_eq_nil_iff] at h
      exact h
    constructor
    · simp [Model.main, Model.pipeline, Model.readCsv, hdec, Model.aggregate, hobs]
    · intro pid
      simp [Model.main, Model.pipeline, Model.readCsv, hdec, Model.aggregate, hobs, hnil]
  · have hout : (Model.main (Model.Dataset.table rows)).output.map Prod.fst =
        Model.groupKeys (Model.extractObs (rows.map Model.rowItems)) := by
      simp [Model.main, Model.pipeline, Model.readCsv, hdec, Model.aggregate, hobs,
        List.map_map, Function.comp_def]
    rw [hout]
    refine ⟨nodup_groupKeys _, fun pid => ?_⟩
    rw [mem_groupKeys, extractObs_eq rows]
    simp [Model.toObs]

/-- Claim C3 as frozen is false: in rowsOneGoodOneBad product 1 appears in
a line item of a well-formed order, yet the output of main is empty: the
single malformed order aborts the whole batch, so product 1 is omitted
although it was not contributed solely by malformed orders. -/
theorem output_keys_cex :
    (∃ it ∈ Model.allLineItems rowsOneGoodOneBad, it.product_id = 1) ∧
    (Model.main (Model.Dataset.table rowsOneGoodOneBad)).output = [] := by
  constructor
  · exact ⟨Model.LineItem.mk 1 10, by decide, rfl⟩
  · rw [main_eval_oneGoodOneBad]

/-- Witness for claim C3 on the example dataset: the key list is duplicate
free and product 1 is a key exactly because it appears in a line item. -/
theorem output_keys_exact_witness :
    ((Model.main (Model.Dataset.table rowsSpecExample)).output.map Prod.fst).Nodup ∧
    ((1 : Int) ∈ (Model.main (Model.Dataset.table rowsSpecExample)).output.map Prod.fst ↔
      ∃ it ∈ Model.allLineItems rowsSpecExample, it.product_id = 1) := by
  have h := output_keys_exact rowsSpecExample (by decide)
  exact ⟨h.1, h.2 1⟩

/-- Claim C4 (amended): a dataset containing an order with malformed
line_items makes main abort the whole batch: it reports an error and
returns the empty mapping, instead of skipping only that order; the result
agrees with the dataset with that order removed only when the latter
yields an empty result itself. -/
theorem malformed_aborts_batch (rows : List Model.OrderRow)
    (r : Model.OrderRow) (raw : String)
    (hr : r ∈ rows) (hm : r.line_items = Model.Cell.malformed raw) :
    Model.main (Model.Dataset.table rows) = Model.MainResult.mk [] true := by
  obtain ⟨e, he⟩ := decodeRows_error_of_malformed rows r raw hr hm
  simp [Model.main, Model.pipeline, Model.readCsv, he]

/-- Claim C4 as frozen is false: the dataset rowsOneGoodOneBad, whose
single malformed order should per the claim merely be skipped, yields a
different output than the dataset with that order removed entirely. -/
theorem malformed_aborts_batch_cex :
    (Model.main (Model.Dataset.table rowsOneGoodOneBad)).output ≠
      (Model.main (Model.Dataset.table rowsOneGood)).output := by
  rw [main_eval_oneGoodOneBad, main_eval_oneGood]
  simp

/-- Witness for claim C4: on rowsOneGoodOneBad, whose second order is
malformed, main returns the empty mapping with the error reported. -/
theorem malformed_aborts_batch_witness :
    Model.main (Model.Dataset.table rowsOneGoodOneBad) = Model.MainResult.mk [] true :=
  malformed_aborts_batch rowsOneGoodOneBad
    (Model.OrderRow.mk (Model.Cell.malformed "not json")) "not json"
    (by decide) rfl

/-- Claim C5: main never propagates an exception: on every dataset either
the pipeline body fails and main reports the error and returns the empty
mapping, or the body succeeds and main returns its mapping unflagged. -/
theorem main_never_raises (ds : Model.Dataset) :
    ((∃ e, Model.pipeline ds = Except.error e) ∧
      Model.main ds = Model.MainResult.mk [] true) ∨
    (∃ m, Model.pipeline ds = Except.ok m ∧
      Model.main ds = Model.MainResult.mk m false) := by
  cases h : Model.pipeline ds with
  | error e => exact Or.inl ⟨⟨e, rfl⟩, by simp [Model.main, h]⟩
  | ok m => exact Or.inr ⟨m, rfl, by simp [Model.main, h]⟩

/-- Claim C6 (amended): on the empty dataset main returns the empty
mapping and raises nothing to the caller, but it reaches that result
through the error path: the aggregation stage fails on the column-less
empty frame, so the orchestrator reports an error before returning. -/
theorem empty_dataset_result :
    Model.main (Model.Dataset.table []) = Model.MainResult.mk [] true := by
  simp [Model.main, Model.pipeline, Model.readCsv, Model.decodeRows, Model.extractObs,
    Model.aggregate]

/-- Claim C6 as frozen is false in its no-error part: on the empty dataset
the except branch of main runs, i.e. an error is reported. -/
theorem empty_dataset_cex :
    (Model.main (Model.Dataset.table [])).errorReported ≠ false := by
  simp [Model.main, Model.pipeline, Model.readCsv, Model.decodeRows, Model.extractObs,
    Model.aggregate]

/-- Claim C7: two runs of main over the same unchanged dataset return
identical results: the heuristic forecast path is a pure function of the
dataset and reads no mutable state. -/
theorem forecast_runs_identical (ds : Model.Dataset) :
    (Model.runForecastTwice ds).1 = (Model.runForecastTwice ds).2 := rfl

/-- Pointwise effect of one line item on the products table: at the
referenced product id an existing row loses the quantity, an absent row is
synthesized with the negated quantity; every other id is untouched. -/
theorem applyItem_apply (db : App.ProductsTable) (item : App.OrderItem) (pid : Int) :
    App.applyItem db item pid =
      if pid = item.product_id then
        match db item.product_id with
        | some r => some { r with stock_level := r.stock_level - item.quantity }
        | none => some (App.ProductRec.mk item.name item.price (-item.quantity))
      else db pid := by
  unfold App.applyItem
  cases hdb : db item.product_id with
  | some r =>
    by_cases hpid : pid = item.product_id <;> simp [hdb, hpid]
  | none =>
    by_cases hpid : pid = item.product_id <;> simp [hdb, hpid]

/-- Pointwise effect of the whole item loop: an existing row loses the
summed quantity of the items referencing it; an absent row referenced by
some item is synthesized from the first such item with the negated summed
quantity; an unreferenced absent row stays absent. -/
theorem applyItems_apply (items : List App.OrderItem) (db : App.ProductsTable) (pid : Int) :
    App.applyItems db items pid =
      match db pid with
      | some r => some { r with stock_level := r.stock_level - App.orderItemsTotal items pid }
      | none =>
        match items.find? (fun it => it.product_id = pid) with
        | some it0 =>
          some (App.ProductRec.mk it0.name it0.price (-(App.orderItemsTotal items pid)))
        | none => none := by
  induction items generalizing db with
  | nil =>
    cases hdb : db pid with
    | some r => simp [App.applyItems, App.orderItemsTotal, hdb]
    | none => simp [App.applyItems, App.orderItemsTotal, hdb]
  | cons it rest ih =>
    have hstep : App.applyItems db (it :: rest) = App.applyItems (App.applyItem db it) rest := rfl
    rw [hstep, ih (App.applyItem db it), applyItem_apply]
    by_cases hpid : pid = it.product_id
    · subst hpid
      rw [if_pos rfl]
      cases hdb : db it.product_id with
      | some r =>
        simp [App.orderItemsTotal, List.filter_cons]
        omega
      | none =>
        simp [App.orderItemsTotal, List.filter_cons, List.find?_cons]
        omega
    · rw [if_neg hpid]
      have hne : it.product_id ≠ pid := fun h => hpid h.symm
      cases hdb : db pid with
      | some r =>
        simp [App.orderItemsTotal, List.filter_cons, hne]
      | none =>
        simp [App.orderItemsTotal, List.filter_cons, List.find?_cons, hne]

/-- Claim C8: processing one selected order (status not completed) whose
line_items decode as valid JSON: each line item's quantity is deducted
from the referenced product's stock_level, so an existing product ends
with its stock_level lowered by the summed quantity of the items
referencing it (possibly negative); a referenced product that does not
exist is synthesized, named and priced from the first item referencing it,
with stock_level the negated summed quantity; afterwards the order's
status is completed. -/
theorem processOrder_deducts (db : App.ProductsTable) (o : App.DBOrder)
    (items : List App.OrderItem)
    (hst : o.status ≠ "completed") (hli : o.line_items = App.ItemsCell.json items) :
    (App.processOrder db o).2.status = "completed" ∧
    (∀ pid : Int,
      (∀ r, db pid = some r →
        (App.processOrder db o).1 pid =
          some { r with stock_level := r.stock_level - App.orderItemsTotal items pid }) ∧
      (db pid = none →
        ∀ it0, items.find? (fun it => it.product_id = pid) = some it0 →
          (App.processOrder db o).1 pid =
            some (App.ProductRec.mk it0.name it0.price (-(App.orderItemsTotal items pid))))) := by
  have hproc : App.processOrder db o =
      (App.applyItems db items, { o with status := "completed" }) := by
    simp [App.processOrder, hst, hli]
  rw [hproc]
  refine ⟨rfl, fun pid => ⟨?_, ?_⟩⟩
  · intro r hr
    show App.applyItems db items pid = _
    rw [applyItems_apply, hr]
  · intro hr it0 hfind
    show App.applyItems db items pid = _
    rw [applyItems_apply, hr, hfind]

/-- Witness for claim C8 on the example pending order against dbWidget:
the order completes, product 1 drops from stock 100 to 90, and the absent
product 2 is synthesized with stock -5. -/
theorem processOrder_deducts_witness :
    (App.processOrder dbWidget orderPending).2.status = "completed" ∧
    (App.processOrder dbWidget orderPending).1 1 =
      some (App.ProductRec.mk "Widget" 2 90) ∧
    (App.processOrder dbWidget orderPending).1 2 =
      some (App.ProductRec.mk "Gadget" 3 (-5)) := by
  have h := processOrder_deducts dbWidget orderPending itemsPending (by decide) rfl
  refine ⟨h.1, ?_, ?_⟩
  · have h1 := (h.2 1).1 (App.ProductRec.mk "Widget" 2 100) (by simp [dbWidget])
    rw [h1]
    simp [App.orderItemsTotal, itemsPending]
  · have h2 := (h.2 2).2 (by simp [dbWidget]) (App.OrderItem.mk 2 5 "Gadget" 3) (by decide)
    rw [h2]
    simp [App.orderItemsTotal, itemsPending]

/-- Claim C9: when learned mode is requested and the persisted model or
scaler artifact cannot be found or loaded, predict_stock_needs propagates
the load failure to its caller; there is no handler and no fallback to any
other prediction mode. -/
theorem predict_fails_without_artifacts (store : Learned.FileStore)
    (new_data : List Learned.NewDataRow)
    (h : store.modelFile = none ∨ store.scalerFile = none) :
    ∃ e, Learned.predict_stock_needs store new_data = Except.error e := by
  cases hm : store.modelFile with
  | none =>
    refine ⟨String.append "FileNotFoundError: " "stock_prediction_model.pkl", ?_⟩
    simp [Learned.predict_stock_needs, Learned.joblibLoad, hm]
  | some model =>
    cases hs : store.scalerFile with
    | none =>
      refine ⟨String.append "FileNotFoundError: " "stock_scaler.pkl", ?_⟩
      simp [Learned.predict_stock_needs, Learned.joblibLoad, hm, hs]
    | some scaler =>
      rcases h with h1 | h1
      · rw [hm] at h1
        cases h1
      · rw [hs] at h1
        cases h1

/-- Witness for claim C9: with both artifact files missing the prediction
call returns a propagating error. -/
theorem predict_fails_without_artifacts_witness :
    ∃ e, Learned.predict_stock_needs emptyStore [] = Except.error e :=
  predict_fails_without_artifacts emptyStore [] (Or.inl rfl)

/-- Claim C10 exhibits a defect of prepare_data (model.py lines 42-43): on
the observations [(1,10),(2,5)] the aggregation of main yields average 10
and count 1 for product 1 and average 5 and count 1 for product 2, while
prepare_data leaves product 1 with missing avg_order_size and
order_frequency (NaN) and hands product 2 the statistics of product 1,
because the column assignment aligns the product_id-indexed Series with
the positional RangeIndex of the frame after reset_index.  The two
aggregators are therefore not equivalent. -/
theorem prepare_data_misaligned :
    Model.prepare_data_agg obsMisaligned =
      Except.ok [Model.PrepRow.mk 1 10 none none,
        Model.PrepRow.mk 2 5 (some 10) (some 1)] ∧
    Model.aggregate obsMisaligned =
      Except.ok [(1, Model.AggRow.mk 10 10 1), (2, Model.AggRow.mk 5 5 1)] := by
  constructor
  · simp [Model.prepare_data_agg, Model.groupKeys, List.insertionSort,
      List.orderedInsert, List.dedup, List.pwFilter, obsMisaligned, Model.totalQuantity,
      Model.avgQuantity, Model.orderFrequency, List.enum, List.enumFrom]
  · simp [Model.aggregate, Model.groupKeys, List.insertionSort,
      List.orderedInsert, List.dedup, List.pwFilter, obsMisaligned, Model.totalQuantity,
      Model.avgQuantity, Model.orderFrequency]
